import Mathlib

/-! Verification development for `pkg/models/models.go`.

A shallow embedding of the scanner's data model (`Severity`, `FindingType`,
`Finding`, `ScanSummary`, `ScanResult`) together with `SeverityRank` and
`ScanResult.ComputeSummary`, followed by theorems about them.

Modelling conventions.

* Go `string` is `String`; the named string types `Severity` and `FindingType`
  are abbreviations of it, so every string is a value of the type, as in Go.
* A Go map is a finite map with no iteration order. It is `GoMap K V`: either
  the nil map or an initialised `Finmap`. Reading a missing key (or a nil map)
  gives the zero value; assigning into the nil map is a run-time fault, so the
  assignment returns `Except`.
* Go `int` is 64 bits wide. The only integers computed here are
  `len(r.Findings)` and counters bounded by it; the length of a slice always
  fits in `int`, so no increment can wrap and `int` is modelled by `Int`.
* A method with a pointer receiver that writes its receiver is a function from
  the old value to the new one.
-/

namespace Models

/-! ## Go maps -/

/-- A Go map value: `none` is the nil map, `some m` an initialised map. -/
abbrev GoMap (K : Type) (V : Type) := Option (Finmap (fun _ : K => V))

namespace GoMap

variable {K : Type} {V : Type} [DecidableEq K]

/-- The map built by `make(map[K]V)`: initialised, no keys. -/
def make : GoMap K V := some ∅

/-- The two-valued read `v, ok := m[k]`, as an option. A nil map has no keys. -/
def lookup (m : GoMap K V) (k : K) : Option V :=
  match m with
  | none => none
  | some fm => fm.lookup k

/-- The read `m[k]` for integer values: the stored value, or `0` (the zero
value of `int`) when the key is absent. -/
def index (m : GoMap K Int) (k : K) : Int :=
  (m.lookup k).getD 0

/-- The assignment `m[k] = v`. Assigning into the nil map faults. -/
def assign (m : GoMap K V) (k : K) (v : V) : Except String (GoMap K V) :=
  match m with
  | none => .error "assignment to entry in nil map"
  | some fm => .ok (some (fm.insert k v))

/-- The statement `m[k]++`, which Go defines as `m[k] = m[k] + 1`. -/
def incr (m : GoMap K Int) (k : K) : Except String (GoMap K Int) :=
  m.assign k (m.index k + 1)

/-- Whether `k` is a key of the map. -/
def hasKey (m : GoMap K V) (k : K) : Bool :=
  (m.lookup k).isSome

/-- The number of keys, `len(m)`. -/
def size (m : GoMap K V) : Nat :=
  match m with
  | none => 0
  | some fm => Multiset.card fm.entries

/-- The sum of all values stored in the map (one summand per key). -/
def sumValues (m : GoMap K Int) : Int :=
  match m with
  | none => 0
  | some fm => (fm.entries.map (fun e => e.2)).sum

end GoMap

/-! ## The data model -/

/-- Go: `type Severity string`. -/
abbrev Severity := String

def SeverityCritical : Severity := "CRITICAL"
def SeverityHigh : Severity := "HIGH"
def SeverityMedium : Severity := "MEDIUM"
def SeverityLow : Severity := "LOW"
def SeverityInfo : Severity := "INFO"

/-- Go: `func SeverityRank(s Severity) int`, a `switch` over the five named
constants with a `default` branch. -/
def SeverityRank (s : Severity) : Int :=
  if s = SeverityCritical then 0
  else if s = SeverityHigh then 1
  else if s = SeverityMedium then 2
  else if s = SeverityLow then 3
  else if s = SeverityInfo then 4
  else 5

/-- Go: `type FindingType string`. -/
abbrev FindingType := String

def FindingPackageVuln : FindingType := "PACKAGE_VULN"
def FindingCISBenchmark : FindingType := "CIS_BENCHMARK"
def FindingContainer : FindingType := "CONTAINER"

/-- Go: `type Package struct`. -/
structure Package where
  Name : String
  Version : String
  Arch : String
  Source : String
  deriving DecidableEq, Repr

/-- Go: `type RemediationStep struct`. -/
structure RemediationStep where
  Summary : String
  Command : String
  Details : String
  Priority : Int
  deriving DecidableEq, Repr

/-- Go: `type Finding struct`. The field `Type` is spelled `Type_` here; the
pointer field `Package *Package` is an option. -/
structure Finding where
  ID : String
  Type_ : FindingType
  Severity : Severity
  Title : String
  Description : String
  Package : Option Package
  CVEs : List String
  FixedIn : String
  References : List String
  Remediation : RemediationStep
  deriving DecidableEq, Repr

/-- Go: `type OSInfo struct`. -/
structure OSInfo where
  ID : String
  VersionID : String
  Name : String
  PrettyName : String
  deriving DecidableEq, Repr

/-- Go: `type ScanTarget struct`. -/
structure ScanTarget where
  Type_ : String
  Image : String
  Dockerfile : String
  RootFS : String
  deriving DecidableEq, Repr

/-- Go: `type ScanSummary struct`. -/
structure ScanSummary where
  Total : Int
  BySeverity : GoMap Severity Int
  ByType : GoMap FindingType Int

/-- Go: `time.Time`, of which only the identity of the value matters here. -/
structure Time where
  wall : Nat
  ext : Int
  deriving DecidableEq, Repr

/-- Go: `type ScanResult struct`. -/
structure ScanResult where
  Target : ScanTarget
  OS : OSInfo
  Findings : List Finding
  Summary : ScanSummary
  Timestamp : Time
  Packages : List Package
  Metadata : GoMap String String

/-- One iteration of the loop of `ComputeSummary`, for the finding `f`:
`r.Summary.BySeverity[f.Severity]++` and then `r.Summary.ByType[f.Type]++`. -/
def ComputeSummary.step (r : ScanResult) (f : Finding) : Except String ScanResult := do
  let bySeverity ← r.Summary.BySeverity.incr f.Severity
  let r1 : ScanResult := { r with Summary := { r.Summary with BySeverity := bySeverity } }
  let byType ← r1.Summary.ByType.incr f.Type_
  pure { r1 with Summary := { r1.Summary with ByType := byType } }

/-- Go: `func (r *ScanResult) ComputeSummary()`. The summary is first replaced
by a fresh one (`Total: len(r.Findings)` and two maps from `make`), then the
findings are ranged over in order. The result is the receiver afterwards, or
an error if a statement faulted. -/
def ScanResult.ComputeSummary (r : ScanResult) : Except String ScanResult :=
  let r0 : ScanResult :=
    { r with Summary :=
      { Total := (r.Findings.length : Int)
        BySeverity := GoMap.make
        ByType := GoMap.make } }
  r0.Findings.foldlM ComputeSummary.step r0

/-- Go: `type CISCheck struct`, a declarative CIS benchmark check. -/
structure CISCheck where
  ID : String
  Title : String
  Description : String
  Command : String
  Expected : String
  Operator : String
  Severity : Severity
  Remediation : String
  RemCommand : String
  deriving DecidableEq, Repr

/-- Go: `type ContainerCheck struct`, a container best-practice check. -/
structure ContainerCheck where
  ID : String
  Title : String
  Description : String
  CheckType : String
  Pattern : String
  Operator : String
  Severity : Severity
  Remediation : String
  deriving DecidableEq, Repr

/-! ## The severity order of the specification -/

/-- The six classes of the fixed severity order: the five named severities and
`unknown`, the class of every other string. -/
inductive SeverityClass where
  | critical
  | high
  | medium
  | low
  | info
  | unknown
  deriving DecidableEq, Repr

/-- The class of a severity string, by the names the specification gives. -/
def severityClass (s : Severity) : SeverityClass :=
  if s = "CRITICAL" then .critical
  else if s = "HIGH" then .high
  else if s = "MEDIUM" then .medium
  else if s = "LOW" then .low
  else if s = "INFO" then .info
  else .unknown

/-- The fixed order `CRITICAL < HIGH < MEDIUM < LOW < INFO < unknown`, written
out pair by pair: `moreSevere a b` holds when `a` stands strictly before `b`. -/
def SeverityClass.moreSevere : SeverityClass → SeverityClass → Bool
  | .critical, .high => true
  | .critical, .medium => true
  | .critical, .low => true
  | .critical, .info => true
  | .critical, .unknown => true
  | .high, .medium => true
  | .high, .low => true
  | .high, .info => true
  | .high, .unknown => true
  | .medium, .low => true
  | .medium, .info => true
  | .medium, .unknown => true
  | .low, .info => true
  | .low, .unknown => true
  | .info, .unknown => true
  | _, _ => false

/-- The severity `s1` is strictly more severe than `s2` in the fixed order. -/
def strictlyMoreSevere (s1 s2 : Severity) : Prop :=
  (severityClass s1).moreSevere (severityClass s2) = true

/-- The severity strings the rank function recognises. -/
def namedSeverities : List Severity :=
  [SeverityCritical, SeverityHigh, SeverityMedium, SeverityLow, SeverityInfo]

/-! ## The comparator and the check runner

Only the declarations `CISCheck` and `ContainerCheck` are in `models.go`; the
code that evaluates a check is not, and is modelled from sections 4.1, 4.2, 6
and 9 of the specification. -/

/-- Modelled from the spec: the check-execution error of section 7, which the
evaluation code (absent from `models.go`) reports for a check that could not
be evaluated, as opposed to a pass or a fail. -/
inductive CheckError where
  | unknownOperator (operator : String)
  | invalidRegex (pattern : String)
  | inspectionFailed (checkID : String)
  deriving DecidableEq, Repr

/-- Modelled from the spec: the collaborators of the absent evaluation code.
Section 6 gives the target handle, "run this command against the target and
capture stdout" and "fetch artifact content/metadata for pattern search"
(`none` when the value cannot be obtained); section 4.1 needs a regular
expression engine (`none` for a pattern that does not compile) and a way to
locate a pattern in an artifact. -/
structure TargetHandle where
  runCommand : String → Option String
  fetchArtifact : String → Option String
  compileRegex : String → Option (String → Bool)
  locate : String → String → Bool

/-- The operators of the table of section 4.1. -/
def supportedOperators : List String :=
  ["equals", "contains", "not_contains", "regex", "found", "not_found"]

/-- Whether `needle` occurs in `hay` as a contiguous substring. -/
def isSubstring (needle hay : String) : Bool :=
  decide (needle.data <:+: hay.data)

/-- Modelled from the spec: the Comparator of section 4.1, absent from
`models.go`. Given an operator tag, the actual value and the expected value
or pattern it returns pass (`true`) or fail (`false`); an unknown operator, or
an invalid regular expression under `regex`, is a check-execution error. -/
def Comparator (h : TargetHandle) (operator actual expected : String) :
    Except CheckError Bool :=
  if operator = "equals" then .ok (decide (actual.trim = expected.trim))
  else if operator = "contains" then .ok (isSubstring expected actual)
  else if operator = "not_contains" then .ok (!isSubstring expected actual)
  else if operator = "regex" then
    match h.compileRegex expected with
    | none => .error (.invalidRegex expected)
    | some matcher => .ok (matcher actual)
  else if operator = "found" then .ok (h.locate expected actual)
  else if operator = "not_found" then .ok (!h.locate expected actual)
  else .error (.unknownOperator operator)

/-- Modelled from the spec: the Check Runner of section 4.2 for a CIS check,
absent from `models.go`. It runs the inspection command, feeds the output to
the Comparator, and yields no finding on a pass, one `CIS_BENCHMARK` finding
on a fail (fields copied from the check, priority from the severity rank), or
a check-execution error. -/
def CISCheck.evaluate (h : TargetHandle) (c : CISCheck) :
    Except CheckError (Option Finding) :=
  match h.runCommand c.Command with
  | none => .error (.inspectionFailed c.ID)
  | some actual =>
    match Comparator h c.Operator actual c.Expected with
    | .error e => .error e
    | .ok true => .ok none
    | .ok false => .ok (some
        { ID := c.ID
          Type_ := FindingCISBenchmark
          Severity := c.Severity
          Title := c.Title
          Description := c.Description
          Package := none
          CVEs := []
          FixedIn := ""
          References := []
          Remediation :=
            { Summary := c.Remediation
              Command := c.RemCommand
              Details := ""
              Priority := SeverityRank c.Severity } })

/-- Modelled from the spec: the Check Runner of section 4.2 for a container
check, absent from `models.go`. It fetches the artifact named by `check_type`,
feeds it with the pattern to the Comparator, and yields no finding on a pass,
one `CONTAINER` finding on a fail, or a check-execution error. -/
def ContainerCheck.evaluate (h : TargetHandle) (c : ContainerCheck) :
    Except CheckError (Option Finding) :=
  match h.fetchArtifact c.CheckType with
  | none => .error (.inspectionFailed c.ID)
  | some actual =>
    match Comparator h c.Operator actual c.Pattern with
    | .error e => .error e
    | .ok true => .ok none
    | .ok false => .ok (some
        { ID := c.ID
          Type_ := FindingContainer
          Severity := c.Severity
          Title := c.Title
          Description := c.Description
          Package := none
          CVEs := []
          FixedIn := ""
          References := []
          Remediation :=
            { Summary := c.Remediation
              Command := ""
              Details := ""
              Priority := SeverityRank c.Severity } })

/-! ## Definitions used to state and prove the properties -/

/-- The counting map reached from `m` by performing `m[k]++` for each key of
`ks` in order, on an initialised map. -/
def tally (ks : List String) (m : Finmap (fun _ : String => Int)) :
    Finmap (fun _ : String => Int) :=
  ks.foldl (fun acc k => acc.insert k ((acc.lookup k).getD 0 + 1)) m

/-- The number of findings of the list whose `Severity` is `s`. -/
def countSeverity (fs : List Finding) (s : Severity) : Nat :=
  fs.countP (fun f => decide (f.Severity = s))

/-- The number of findings of the list whose `Type` is `t`. -/
def countType (fs : List Finding) (t : FindingType) : Nat :=
  fs.countP (fun f => decide (f.Type_ = t))

/-! ## Sample inputs -/

/-- A scan result with one HIGH container finding, a stale total of 7 and nil
summary maps. -/
def staleResult : ScanResult :=
  { Target := ⟨"container", "img", "", "/"⟩
    OS := ⟨"alpine", "3.19", "Alpine", "Alpine Linux"⟩
    Findings := [⟨"F1", FindingContainer, SeverityHigh, "t", "d", none, [], "", [], ⟨"s", "", "", 1⟩⟩]
    Summary := ⟨7, none, none⟩
    Timestamp := ⟨0, 0⟩
    Packages := []
    Metadata := none }

/-- The same findings as `staleResult` under a different target, with a stale
total of 3 and a stale CRITICAL count of 3. -/
def otherStaleResult : ScanResult :=
  { staleResult with
    Target := ⟨"os", "", "", "/mnt"⟩
    Summary := ⟨3, some (Finmap.singleton SeverityCritical 3), some ∅⟩ }

/-- A scan result with no findings whose summary still holds stale counts. -/
def emptyStaleResult : ScanResult :=
  { staleResult with
    Findings := []
    Summary := ⟨4, some (Finmap.singleton SeverityLow 4), none⟩ }

/-- A scan result whose two findings carry a severity (`urgent`) and a type
(`LICENSE`) outside the named constants, next to one CRITICAL package
finding. -/
def unnamedKindsResult : ScanResult :=
  { staleResult with
    Findings :=
      [⟨"F1", "LICENSE", "urgent", "t", "d", none, [], "", [], ⟨"s", "", "", 1⟩⟩,
       ⟨"F2", FindingPackageVuln, SeverityCritical, "t", "d", none, [], "", [], ⟨"s", "", "", 0⟩⟩,
       ⟨"F3", "LICENSE", "urgent", "t", "d", none, [], "", [], ⟨"s", "", "", 1⟩⟩] }

/-- A CIS benchmark finding that nevertheless carries a package. -/
def cisFindingWithPackage : Finding :=
  ⟨"CIS-5.2.8", FindingCISBenchmark, SeverityHigh, "root login", "d",
    some ⟨"openssh-server", "9.6", "amd64", "dpkg"⟩, [], "", [], ⟨"s", "", "", 1⟩⟩

/-- A container finding that nevertheless carries a package. -/
def containerFindingWithPackage : Finding :=
  ⟨"DKR-001", FindingContainer, SeverityMedium, "runs as root", "d",
    some ⟨"busybox", "1.36", "", "apk"⟩, [], "", [], ⟨"s", "", "", 2⟩⟩

/-- The scan result `unnamedKindsResult` with its findings in reverse order. -/
def reversedKindsResult : ScanResult :=
  { unnamedKindsResult with Findings := unnamedKindsResult.Findings.reverse }

/-- A target on which every command prints `ok` and every artifact reads
`FROM alpine`, with an engine that compiles no pattern and locates nothing. -/
def sampleTarget : TargetHandle :=
  { runCommand := fun _ => some "ok"
    fetchArtifact := fun _ => some "FROM alpine"
    compileRegex := fun _ => none
    locate := fun _ _ => false }

/-- A CIS check with the operator `starts_with`, which is not supported. -/
def sampleCISCheck : CISCheck :=
  ⟨"1.1", "t", "d", "true", "ok", "starts_with", SeverityHigh, "fix", ""⟩

/-- A container check with the operator `matches`, which is not supported. -/
def sampleContainerCheck : ContainerCheck :=
  ⟨"C1", "t", "d", "dockerfile", "FROM", "matches", SeverityLow, "fix"⟩

end Models

/-! ## Auxiliary facts about association lists and finite maps -/

namespace Models

theorem sum_kerase_add_dlookup (k : String) (l : List (Sigma (fun _ : String => Int))) :
    ((l.kerase k).map (fun e => e.2)).sum + (l.dlookup k).getD 0
      = (l.map (fun e => e.2)).sum := by
  induction l with
  | nil => simp
  | cons e l ih =>
    obtain ⟨a, b⟩ := e
    by_cases h : k = a
    · subst h
      simp [List.kerase_cons_eq, List.dlookup_cons_eq]
      omega
    · have h2 : a ≠ k := fun x => h x.symm
      rw [List.kerase_cons_ne h, List.dlookup_cons_ne l _ h]
      simp only [List.map_cons, List.sum_cons]
      omega

theorem sumValues_insert (fm : Finmap (fun _ : String => Int)) (k : String) (v : Int) :
    GoMap.sumValues (some (fm.insert k v))
      = GoMap.sumValues (some fm) + v - (fm.lookup k).getD 0 := by
  induction fm using Finmap.induction_on with
  | H a =>
    have h := sum_kerase_add_dlookup k a.entries
    simp only [GoMap.sumValues, Finmap.insert_toFinmap, AList.toFinmap_entries,
      AList.insert_entries, Finmap.lookup_toFinmap, Multiset.map_coe, Multiset.sum_coe,
      List.map_cons, List.sum_cons, AList.lookup]
    omega

theorem sumValues_empty :
    GoMap.sumValues (some (∅ : Finmap (fun _ : String => Int))) = 0 := rfl

theorem tally_sumValues (ks : List String) (m : Finmap (fun _ : String => Int)) :
    GoMap.sumValues (some (tally ks m)) = GoMap.sumValues (some m) + (ks.length : Int) := by
  induction ks generalizing m with
  | nil => simp [tally]
  | cons k ks ih =>
    have h := ih (m.insert k ((m.lookup k).getD 0 + 1))
    have h2 := sumValues_insert m k ((m.lookup k).getD 0 + 1)
    simp only [tally, List.foldl_cons, List.length_cons] at h ⊢
    rw [h, h2]
    push_cast
    omega

theorem tally_lookup (ks : List String) (m : Finmap (fun _ : String => Int)) (k : String) :
    ((tally ks m).lookup k).getD 0 = (m.lookup k).getD 0 + (ks.count k : Int) := by
  induction ks generalizing m with
  | nil => simp [tally]
  | cons a ks ih =>
    have h := ih (m.insert a ((m.lookup a).getD 0 + 1))
    simp only [tally, List.foldl_cons] at h ⊢
    rw [h]
    by_cases hk : k = a
    · subst hk
      simp [Finmap.lookup_insert]
      omega
    · have hk2 : a ≠ k := fun x => hk x.symm
      rw [Finmap.lookup_insert_of_ne _ hk]
      simp [List.count_cons, hk2]

theorem tally_mem (ks : List String) (m : Finmap (fun _ : String => Int)) (k : String) :
    k ∈ tally ks m ↔ k ∈ m ∨ k ∈ ks := by
  induction ks generalizing m with
  | nil => simp [tally]
  | cons a ks ih =>
    have h := ih (m.insert a ((m.lookup a).getD 0 + 1))
    simp only [tally, List.foldl_cons] at h ⊢
    rw [h, Finmap.mem_insert, List.mem_cons]
    tauto

theorem hasKey_tally (ks : List String) (k : String) (hk : k ∈ ks) :
    GoMap.hasKey (some (tally ks ∅)) k = true := by
  simp only [GoMap.hasKey, GoMap.lookup, Finmap.lookup_isSome]
  exact (tally_mem ks ∅ k).mpr (Or.inr hk)

/-! ## What `ComputeSummary` computes -/

theorem step_ok (r : ScanResult) (f : Finding) (a b : Finmap (fun _ : String => Int))
    (ha : r.Summary.BySeverity = some a) (hb : r.Summary.ByType = some b) :
    ComputeSummary.step r f = .ok
      { r with Summary :=
        { Total := r.Summary.Total
          BySeverity := some (a.insert f.Severity ((a.lookup f.Severity).getD 0 + 1))
          ByType := some (b.insert f.Type_ ((b.lookup f.Type_).getD 0 + 1)) } } := by
  simp only [ComputeSummary.step, GoMap.incr, GoMap.assign, GoMap.index, GoMap.lookup, ha, hb]
  rfl

theorem foldlM_step_ok (fs : List Finding) (r : ScanResult)
    (a b : Finmap (fun _ : String => Int))
    (ha : r.Summary.BySeverity = some a) (hb : r.Summary.ByType = some b) :
    fs.foldlM ComputeSummary.step r = .ok
      { r with Summary :=
        { Total := r.Summary.Total
          BySeverity := some (tally (fs.map (fun f => f.Severity)) a)
          ByType := some (tally (fs.map (fun f => f.Type_)) b) } } := by
  induction fs generalizing r a b with
  | nil =>
    obtain ⟨_, _, _, ⟨_, _, _⟩, _, _, _⟩ := r
    simp only at ha hb
    subst ha hb
    rfl
  | cons f fs ih =>
    rw [List.foldlM_cons, step_ok r f a b ha hb]
    exact ih _ _ _ rfl rfl

/-- `ComputeSummary` always completes, and its result is the receiver with the
summary replaced by the length of the findings and the two counting maps. -/
theorem ComputeSummary_eq (r : ScanResult) :
    r.ComputeSummary = .ok
      { r with Summary :=
        { Total := (r.Findings.length : Int)
          BySeverity := some (tally (r.Findings.map (fun f => f.Severity)) ∅)
          ByType := some (tally (r.Findings.map (fun f => f.Type_)) ∅) } } := by
  unfold ScanResult.ComputeSummary
  exact foldlM_step_ok r.Findings _ ∅ ∅ rfl rfl

theorem count_map_severity (fs : List Finding) (s : Severity) :
    (fs.map (fun f => f.Severity)).count s = countSeverity fs s := by
  induction fs with
  | nil => rfl
  | cons f fs ih =>
    by_cases h : f.Severity = s
    · simp only [countSeverity] at ih
      simp [countSeverity, List.count_cons, h, ih]
    · simp only [countSeverity] at ih
      simp [countSeverity, List.count_cons, h, ih]

theorem count_map_type (fs : List Finding) (t : FindingType) :
    (fs.map (fun f => f.Type_)).count t = countType fs t := by
  induction fs with
  | nil => rfl
  | cons f fs ih =>
    by_cases h : f.Type_ = t
    · simp only [countType] at ih
      simp [countType, List.count_cons, h, ih]
    · simp only [countType] at ih
      simp [countType, List.count_cons, h, ih]

/-! ## The summary invariants -/

/-- C1. For every scan result, `ComputeSummary` completes and afterwards
`Summary.Total` equals the number of findings, whatever the findings list
(empty included) and whatever the summary held before. -/
theorem ComputeSummary_total (r : ScanResult) :
    ∃ r', r.ComputeSummary = .ok r' ∧
      r'.Summary.Total = (r'.Findings.length : Int) ∧
      r'.Summary.Total = (r.Findings.length : Int) := by
  exact ⟨_, ComputeSummary_eq r, rfl, rfl⟩

/-- C2. For every scan result, after `ComputeSummary` the values stored in
`Summary.BySeverity` add up to the number of findings. The severity strings
are arbitrary: a finding whose severity is none of the five named ones is
counted as well, under its own key, which is then a key of the map. -/
theorem ComputeSummary_bySeverity_sum (r : ScanResult) :
    ∃ r', r.ComputeSummary = .ok r' ∧
      r'.Summary.BySeverity.sumValues = (r.Findings.length : Int) ∧
      ∀ f ∈ r.Findings, r'.Summary.BySeverity.hasKey f.Severity = true := by
  refine ⟨_, ComputeSummary_eq r, ?_, ?_⟩
  · have h := tally_sumValues (r.Findings.map (fun f => f.Severity)) ∅
    simp only [List.length_map, sumValues_empty, zero_add] at h
    exact h
  · intro f hf
    exact hasKey_tally _ _ (List.mem_map_of_mem (fun f => f.Severity) hf)

/-- Witness for C2: with two findings of severity `urgent` and one CRITICAL,
the stored values add up to 3 and `urgent` is a key. -/
theorem ComputeSummary_bySeverity_sum_witness :
    ∃ r', unnamedKindsResult.ComputeSummary = .ok r' ∧
      r'.Summary.BySeverity.sumValues = 3 ∧
      r'.Summary.BySeverity.hasKey "urgent" = true := by
  obtain ⟨r', h1, h2, h3⟩ := ComputeSummary_bySeverity_sum unnamedKindsResult
  exact ⟨r', h1, h2, h3 _ (List.mem_cons_self _ _)⟩

/-- C3. For every scan result, after `ComputeSummary` the values stored in
`Summary.ByType` add up to the number of findings and hence to
`Summary.Total`. The type strings are arbitrary: a finding whose type is none
of PACKAGE_VULN, CIS_BENCHMARK, CONTAINER is counted as well, under its own
key. -/
theorem ComputeSummary_byType_sum (r : ScanResult) :
    ∃ r', r.ComputeSummary = .ok r' ∧
      r'.Summary.ByType.sumValues = (r.Findings.length : Int) ∧
      r'.Summary.ByType.sumValues = r'.Summary.Total ∧
      ∀ f ∈ r.Findings, r'.Summary.ByType.hasKey f.Type_ = true := by
  refine ⟨_, ComputeSummary_eq r, ?_⟩
  have h := tally_sumValues (r.Findings.map (fun f => f.Type_)) ∅
  simp only [List.length_map, sumValues_empty, zero_add] at h
  refine ⟨h, h, ?_⟩
  intro f hf
  exact hasKey_tally _ _ (List.mem_map_of_mem (fun f => f.Type_) hf)

/-- Witness for C3: with two findings of type `LICENSE` and one PACKAGE_VULN,
the stored values add up to 3, the total, and `LICENSE` is a key. -/
theorem ComputeSummary_byType_sum_witness :
    ∃ r', unnamedKindsResult.ComputeSummary = .ok r' ∧
      r'.Summary.ByType.sumValues = 3 ∧ r'.Summary.Total = 3 ∧
      r'.Summary.ByType.hasKey "LICENSE" = true := by
  obtain ⟨r', h1, h2, h3, h4⟩ := ComputeSummary_byType_sum unnamedKindsResult
  exact ⟨r', h1, h2, h3 ▸ h2, h4 _ (List.mem_cons_self _ _)⟩

/-! ## The severity rank -/

/-- C4. For all severity strings `s1` and `s2`, `SeverityRank s1` is less than
`SeverityRank s2` exactly when `s1` is strictly more severe than `s2` in the
fixed order CRITICAL, HIGH, MEDIUM, LOW, INFO, unknown, where every string
other than the five names is in the class unknown. -/
theorem SeverityRank_lt_iff (s1 s2 : Severity) :
    SeverityRank s1 < SeverityRank s2 ↔ strictlyMoreSevere s1 s2 := by
  unfold SeverityRank strictlyMoreSevere severityClass SeverityCritical SeverityHigh
    SeverityMedium SeverityLow SeverityInfo
  split_ifs <;> simp_all [SeverityClass.moreSevere]

/-- C5. `SeverityRank` is a total function giving 0, 1, 2, 3, 4 on CRITICAL,
HIGH, MEDIUM, LOW, INFO and 5 on every other string, the empty string and
the lower-case spelling "critical" among them; hence an unrecognised severity
ranks strictly after every recognised one. -/
theorem SeverityRank_values :
    SeverityRank "CRITICAL" = 0 ∧ SeverityRank "HIGH" = 1 ∧ SeverityRank "MEDIUM" = 2 ∧
    SeverityRank "LOW" = 3 ∧ SeverityRank "INFO" = 4 ∧
    (∀ s : Severity, s ∉ namedSeverities → SeverityRank s = 5) ∧
    SeverityRank "" = 5 ∧ SeverityRank "critical" = 5 ∧
    (∀ s t : Severity, s ∉ namedSeverities → t ∈ namedSeverities →
      SeverityRank t < SeverityRank s) := by
  have hun : ∀ s : Severity, s ∉ namedSeverities → SeverityRank s = 5 := by
    intro s hs
    simp only [namedSeverities, List.mem_cons, List.mem_nil_iff, or_false, not_or] at hs
    obtain ⟨h1, h2, h3, h4, h5⟩ := hs
    simp [SeverityRank, h1, h2, h3, h4, h5]
  refine ⟨by decide, by decide, by decide, by decide, by decide, hun,
    hun _ (by decide), hun _ (by decide), ?_⟩
  intro s t hs ht
  rw [hun s hs]
  simp only [namedSeverities, List.mem_cons, List.mem_nil_iff, or_false] at ht
  rcases ht with h | h | h | h | h <;> subst h <;> decide

/-- Witness for C5: the string "urgent" is not a named severity; it has rank 5
and ranks after HIGH. -/
theorem SeverityRank_values_witness :
    "urgent" ∉ namedSeverities ∧ SeverityRank "urgent" = 5 ∧
      SeverityRank "HIGH" < SeverityRank "urgent" :=
  ⟨by decide, SeverityRank_values.2.2.2.2.2.1 "urgent" (by decide),
    SeverityRank_values.2.2.2.2.2.2.2.2 "urgent" "HIGH" (by decide) (by decide)⟩

/-! ## Counts, recomputation and frame -/

/-- C6. For every scan result, after `ComputeSummary` the entry of
`Summary.BySeverity` at any severity `s` (read as 0 when absent) is the number
of findings with that severity, and the entry of `Summary.ByType` at any type
`t` is the number of findings with that type. -/
theorem ComputeSummary_counts (r : ScanResult) :
    ∃ r', r.ComputeSummary = .ok r' ∧
      (∀ s : Severity, r'.Summary.BySeverity.index s = (countSeverity r.Findings s : Int)) ∧
      (∀ t : FindingType, r'.Summary.ByType.index t = (countType r.Findings t : Int)) := by
  refine ⟨_, ComputeSummary_eq r, ?_, ?_⟩
  · intro s
    have h := tally_lookup (r.Findings.map (fun f => f.Severity)) ∅ s
    rw [count_map_severity] at h
    simpa [GoMap.index, GoMap.lookup] using h
  · intro t
    have h := tally_lookup (r.Findings.map (fun f => f.Type_)) ∅ t
    rw [count_map_type] at h
    simpa [GoMap.index, GoMap.lookup] using h

/-- C7. `ComputeSummary` recomputes the summary from the findings alone.
Two scan results with equal findings get equal summaries whatever their
summaries were before; running it a second time changes nothing; and after the
findings are replaced by any list `fs`, a new run gives the summary that a run
on any scan result `r2` with findings `fs` gives. -/
theorem ComputeSummary_wholesale (r1 r2 : ScanResult) :
    (r1.Findings = r2.Findings →
      ∃ r1' r2', r1.ComputeSummary = .ok r1' ∧ r2.ComputeSummary = .ok r2' ∧
        r1'.Summary = r2'.Summary) ∧
    (∃ r1' r1'', r1.ComputeSummary = .ok r1' ∧ r1'.ComputeSummary = .ok r1'' ∧
        r1''.Summary = r1'.Summary ∧ r1'' = r1') ∧
    (∃ r1' r3 r2', r1.ComputeSummary = .ok r1' ∧
        ({ r1' with Findings := r2.Findings } : ScanResult).ComputeSummary = .ok r3 ∧
        r2.ComputeSummary = .ok r2' ∧ r3.Summary = r2'.Summary) := by
  refine ⟨?_, ?_, ?_⟩
  · intro h
    refine ⟨_, _, ComputeSummary_eq r1, ComputeSummary_eq r2, ?_⟩
    simp only [h]
  · exact ⟨_, _, ComputeSummary_eq r1, ComputeSummary_eq _, rfl, rfl⟩
  · exact ⟨_, _, _, ComputeSummary_eq r1, ComputeSummary_eq _, ComputeSummary_eq r2, rfl⟩

/-- Witness for C7 at two scan results with the same single finding and
different stale summaries. -/
theorem ComputeSummary_wholesale_witness :
    staleResult.Findings = otherStaleResult.Findings ∧
    staleResult.Summary.Total ≠ otherStaleResult.Summary.Total ∧
    ∃ r1' r2', staleResult.ComputeSummary = .ok r1' ∧
      otherStaleResult.ComputeSummary = .ok r2' ∧ r1'.Summary = r2'.Summary :=
  ⟨rfl, by decide, (ComputeSummary_wholesale staleResult otherStaleResult).1 rfl⟩

/-- C8. For a scan result with no findings, `ComputeSummary` completes with
`Summary.Total` equal to 0, `BySeverity` and `ByType` initialised maps with no
key, and the findings still empty. -/
theorem ComputeSummary_empty (r : ScanResult) (h : r.Findings = []) :
    ∃ r', r.ComputeSummary = .ok r' ∧ r'.Summary.Total = 0 ∧
      r'.Summary.BySeverity = some ∅ ∧ r'.Summary.ByType = some ∅ ∧
      r'.Summary.BySeverity.size = 0 ∧ r'.Summary.ByType.size = 0 ∧
      r'.Findings = [] := by
  obtain ⟨target, os, findings, summary, timestamp, packages, metadata⟩ := r
  simp only at h
  subst h
  exact ⟨_, ComputeSummary_eq _, rfl, rfl, rfl, rfl, rfl, rfl⟩

/-- Witness for C8 at a scan result with no findings and a stale summary. -/
theorem ComputeSummary_empty_witness :
    emptyStaleResult.Findings = [] ∧
    ∃ r', emptyStaleResult.ComputeSummary = .ok r' ∧ r'.Summary.Total = 0 ∧
      r'.Summary.BySeverity = some ∅ ∧ r'.Summary.ByType = some ∅ ∧
      r'.Summary.BySeverity.size = 0 ∧ r'.Summary.ByType.size = 0 ∧
      r'.Findings = [] :=
  ⟨rfl, ComputeSummary_empty emptyStaleResult rfl⟩

/-- C9. `ComputeSummary` writes only `Summary`: afterwards the findings are the
same list in the same order, and `Target`, `OS`, `Timestamp`, `Packages` and
`Metadata` are unchanged. -/
theorem ComputeSummary_frame (r : ScanResult) :
    ∃ r', r.ComputeSummary = .ok r' ∧ r'.Findings = r.Findings ∧
      r'.Target = r.Target ∧ r'.OS = r.OS ∧ r'.Timestamp = r.Timestamp ∧
      r'.Packages = r.Packages ∧ r'.Metadata = r.Metadata ∧
      r' = { r with Summary := r'.Summary } :=
  ⟨_, ComputeSummary_eq r, rfl, rfl, rfl, rfl, rfl, rfl, rfl⟩

/-! ## Checks with an unsupported operator -/

theorem Comparator_unsupported (h : TargetHandle) (operator actual expected : String)
    (hop : operator ∉ supportedOperators) :
    Comparator h operator actual expected = .error (.unknownOperator operator) := by
  simp only [supportedOperators, List.mem_cons, List.mem_nil_iff, or_false, not_or] at hop
  obtain ⟨h1, h2, h3, h4, h5, h6⟩ := hop
  simp [Comparator, h1, h2, h3, h4, h5, h6]

/-- C10. A CIS check or a container check whose operator is outside
equals, contains, not_contains, regex, found, not_found evaluates to a
check-execution error: never to a pass (no finding) and never to a fail (a
finding). -/
theorem evaluate_unsupported_operator (h : TargetHandle) (c : CISCheck) (d : ContainerCheck) :
    (c.Operator ∉ supportedOperators →
      (∃ e, c.evaluate h = .error e) ∧ c.evaluate h ≠ .ok none ∧
        ∀ f, c.evaluate h ≠ .ok (some f)) ∧
    (d.Operator ∉ supportedOperators →
      (∃ e, d.evaluate h = .error e) ∧ d.evaluate h ≠ .ok none ∧
        ∀ f, d.evaluate h ≠ .ok (some f)) := by
  constructor
  · intro hop
    have key : ∃ e, c.evaluate h = .error e := by
      unfold CISCheck.evaluate
      cases h.runCommand c.Command with
      | none => exact ⟨_, rfl⟩
      | some actual =>
        simp only [Comparator_unsupported h c.Operator actual c.Expected hop]
        exact ⟨_, rfl⟩
    obtain ⟨e, he⟩ := key
    rw [he]
    exact ⟨⟨e, rfl⟩, by simp, by simp⟩
  · intro hop
    have key : ∃ e, d.evaluate h = .error e := by
      unfold ContainerCheck.evaluate
      cases h.fetchArtifact d.CheckType with
      | none => exact ⟨_, rfl⟩
      | some actual =>
        simp only [Comparator_unsupported h d.Operator actual d.Pattern hop]
        exact ⟨_, rfl⟩
    obtain ⟨e, he⟩ := key
    rw [he]
    exact ⟨⟨e, rfl⟩, by simp, by simp⟩

/-- Witness for C10: with the operators `starts_with` and `matches`, both
sample checks evaluate to the unknown-operator error. -/
theorem evaluate_unsupported_operator_witness :
    sampleCISCheck.Operator ∉ supportedOperators ∧
    sampleContainerCheck.Operator ∉ supportedOperators ∧
    (∃ e, sampleCISCheck.evaluate sampleTarget = .error e) ∧
    (∃ e, sampleContainerCheck.evaluate sampleTarget = .error e) :=
  ⟨by decide, by decide,
    ((evaluate_unsupported_operator sampleTarget sampleCISCheck sampleContainerCheck).1
      (by decide)).1,
    ((evaluate_unsupported_operator sampleTarget sampleCISCheck sampleContainerCheck).2
      (by decide)).1⟩

/-! ## Further facts about the counting maps -/

theorem index_tally (ks : List String) (k : String) :
    GoMap.index (some (tally ks ∅)) k = (ks.count k : Int) := by
  have h := tally_lookup ks ∅ k
  simpa [GoMap.index, GoMap.lookup] using h

theorem lookup_tally (ks : List String) (k : String) :
    (tally ks ∅).lookup k = if k ∈ ks then some (ks.count k : Int) else none := by
  by_cases hk : k ∈ ks
  · have hmem : k ∈ tally ks ∅ := (tally_mem ks ∅ k).mpr (Or.inr hk)
    obtain ⟨v, hv⟩ := Finmap.mem_iff.mp hmem
    have h := tally_lookup ks ∅ k
    rw [hv] at h
    simp only [Option.getD_some, Finmap.lookup_empty, Option.getD_none, zero_add] at h
    rw [hv, if_pos hk, h]
  · have hnot : k ∉ tally ks ∅ := by
      intro hmem
      rcases (tally_mem ks ∅ k).mp hmem with h | h
      · exact Finmap.not_mem_empty h
      · exact hk h
    rw [if_neg hk]
    exact Finmap.lookup_eq_none.mpr hnot

theorem tally_perm (ks ls : List String) (h : ks.Perm ls) : tally ks ∅ = tally ls ∅ := by
  apply Finmap.ext_lookup
  intro k
  rw [lookup_tally, lookup_tally, h.count_eq k]
  by_cases hk : k ∈ ks
  · rw [if_pos hk, if_pos (h.mem_iff.mp hk)]
  · rw [if_neg hk, if_neg (fun hl => hk (h.mem_iff.mpr hl))]

theorem countSeverity_append (fs gs : List Finding) (s : Severity) :
    countSeverity (fs ++ gs) s = countSeverity fs s + countSeverity gs s := by
  simp [countSeverity, List.countP_append]

theorem countType_append (fs gs : List Finding) (t : FindingType) :
    countType (fs ++ gs) t = countType fs t + countType gs t := by
  simp [countType, List.countP_append]

theorem countSeverity_insert (pre post : List Finding) (g : Finding) :
    countSeverity (pre ++ g :: post) g.Severity = countSeverity (pre ++ post) g.Severity + 1 := by
  simp [countSeverity, List.countP_append, List.countP_cons]
  omega

theorem countType_insert (pre post : List Finding) (g : Finding) :
    countType (pre ++ g :: post) g.Type_ = countType (pre ++ post) g.Type_ + 1 := by
  simp [countType, List.countP_append, List.countP_cons]
  omega

/-! ## Packages on findings, zero counts, order and merging -/

/-- C11. The pairing of `Package` with PACKAGE_VULN is not enforced: there is a
finding of type CIS_BENCHMARK with a package, and one of type CONTAINER; and
for every finding `g` at any place of the findings of any scan result,
`ComputeSummary` completes and counts `g` once in `Total`, once under its
severity and once under its type, with the very summary it gives when `g`
carries no package. -/
theorem ComputeSummary_package_unenforced :
    (∃ g : Finding, g.Type_ = FindingCISBenchmark ∧ g.Package.isSome = true) ∧
    (∃ g : Finding, g.Type_ = FindingContainer ∧ g.Package.isSome = true) ∧
    ∀ (g : Finding) (r : ScanResult) (pre post : List Finding),
      ∃ r' r'',
        ({ r with Findings := pre ++ g :: post } : ScanResult).ComputeSummary = .ok r' ∧
        r'.Summary.Total = ((pre ++ post).length : Int) + 1 ∧
        r'.Summary.BySeverity.index g.Severity
          = (countSeverity (pre ++ post) g.Severity : Int) + 1 ∧
        r'.Summary.ByType.index g.Type_ = (countType (pre ++ post) g.Type_ : Int) + 1 ∧
        ({ r with Findings := pre ++ { g with Package := none } :: post } :
          ScanResult).ComputeSummary = .ok r'' ∧
        r''.Summary = r'.Summary := by
  refine ⟨⟨cisFindingWithPackage, rfl, rfl⟩, ⟨containerFindingWithPackage, rfl, rfl⟩, ?_⟩
  intro g r pre post
  refine ⟨_, _, ComputeSummary_eq _, ?_, ?_, ?_, ComputeSummary_eq _, ?_⟩
  · simp only [List.length_append, List.length_cons]
    push_cast
    omega
  · simp only
    rw [index_tally, count_map_severity, countSeverity_insert]
    push_cast
    rfl
  · simp only
    rw [index_tally, count_map_type, countType_insert]
    push_cast
    rfl
  · simp only [List.map_append, List.map_cons, List.length_append, List.length_cons]

/-- C12. `ComputeSummary` stores no zero count: afterwards a severity is a key
of `BySeverity` exactly when some finding has it, a type is a key of `ByType`
exactly when some finding has it, and every stored value is at least 1; so
CRITICAL is absent from the map when no finding is CRITICAL. -/
theorem ComputeSummary_no_zero_count (r : ScanResult) :
    ∃ r', r.ComputeSummary = .ok r' ∧
      (∀ s : Severity,
        r'.Summary.BySeverity.hasKey s = true ↔ ∃ f ∈ r.Findings, f.Severity = s) ∧
      (∀ t : FindingType,
        r'.Summary.ByType.hasKey t = true ↔ ∃ f ∈ r.Findings, f.Type_ = t) ∧
      (∀ (s : Severity) (v : Int), r'.Summary.BySeverity.lookup s = some v → 1 ≤ v) ∧
      (∀ (t : FindingType) (v : Int), r'.Summary.ByType.lookup t = some v → 1 ≤ v) ∧
      ((∀ f ∈ r.Findings, f.Severity ≠ SeverityCritical) →
        r'.Summary.BySeverity.lookup SeverityCritical = none) := by
  have hval : ∀ (ks : List String) (k : String) (v : Int),
      (tally ks ∅).lookup k = some v → 1 ≤ v := by
    intro ks k v hv
    rw [lookup_tally] at hv
    by_cases hk : k ∈ ks
    · rw [if_pos hk] at hv
      have hpos : 0 < ks.count k := List.count_pos_iff.mpr hk
      have hv2 : (ks.count k : Int) = v := Option.some.inj hv
      omega
    · rw [if_neg hk] at hv
      cases hv
  have hkey : ∀ (ks : List String) (k : String),
      GoMap.hasKey (some (tally ks ∅)) k = true ↔ k ∈ ks := by
    intro ks k
    simp only [GoMap.hasKey, GoMap.lookup, Finmap.lookup_isSome, tally_mem]
    constructor
    · rintro (h | h)
      · exact absurd h Finmap.not_mem_empty
      · exact h
    · exact Or.inr
  refine ⟨_, ComputeSummary_eq r, ?_, ?_, ?_, ?_, ?_⟩
  · intro s
    simp only [hkey, List.mem_map]
  · intro t
    simp only [hkey, List.mem_map]
  · intro s v hv
    exact hval _ s v hv
  · intro t v hv
    exact hval _ t v hv
  · intro hno
    simp only [GoMap.lookup]
    rw [lookup_tally, if_neg]
    simp only [List.mem_map, not_exists, not_and]
    exact hno

/-- Witness for C12: `unnamedKindsResult` has findings of severity `urgent` and
CRITICAL only; afterwards `urgent` is a key and HIGH is not. -/
theorem ComputeSummary_no_zero_count_witness :
    ∃ r', unnamedKindsResult.ComputeSummary = .ok r' ∧
      r'.Summary.BySeverity.hasKey "urgent" = true ∧
      r'.Summary.BySeverity.hasKey SeverityHigh = false := by
  obtain ⟨r', h1, h2, _, _, _, _⟩ := ComputeSummary_no_zero_count unnamedKindsResult
  refine ⟨r', h1, (h2 "urgent").mpr ⟨_, List.mem_cons_self _ _, rfl⟩, ?_⟩
  rw [Bool.eq_false_iff]
  intro hk
  obtain ⟨f, hf, hs⟩ := (h2 SeverityHigh).mp (by simpa using hk)
  simp only [unnamedKindsResult, List.mem_cons, List.mem_nil_iff, or_false] at hf
  rcases hf with h | h | h <;> subst h <;> exact absurd hs (by decide)

/-- C13. The summary does not depend on the order of the findings: two scan
results whose findings are permutations of each other get equal summaries,
that is the same `Total`, the same `BySeverity` map and the same `ByType`
map. -/
theorem ComputeSummary_perm (r1 r2 : ScanResult) (h : r1.Findings.Perm r2.Findings) :
    ∃ r1' r2', r1.ComputeSummary = .ok r1' ∧ r2.ComputeSummary = .ok r2' ∧
      r1'.Summary.Total = r2'.Summary.Total ∧
      r1'.Summary.BySeverity = r2'.Summary.BySeverity ∧
      r1'.Summary.ByType = r2'.Summary.ByType ∧
      r1'.Summary = r2'.Summary := by
  have hlen : (r1.Findings.length : Int) = (r2.Findings.length : Int) := by
    rw [h.length_eq]
  have hsev := tally_perm _ _ (h.map (fun f : Finding => f.Severity))
  have htyp := tally_perm _ _ (h.map (fun f : Finding => f.Type_))
  refine ⟨_, _, ComputeSummary_eq r1, ComputeSummary_eq r2, ?_, ?_, ?_, ?_⟩
  · exact hlen
  · simp only [hsev]
  · simp only [htyp]
  · simp only [hlen, hsev, htyp]

/-- Witness for C13: `unnamedKindsResult` and the same result with its three
findings reversed get equal summaries. -/
theorem ComputeSummary_perm_witness :
    unnamedKindsResult.Findings.Perm reversedKindsResult.Findings ∧
    ∃ r1' r2', unnamedKindsResult.ComputeSummary = .ok r1' ∧
      reversedKindsResult.ComputeSummary = .ok r2' ∧
      r1'.Summary.Total = r2'.Summary.Total ∧
      r1'.Summary.BySeverity = r2'.Summary.BySeverity ∧
      r1'.Summary.ByType = r2'.Summary.ByType ∧
      r1'.Summary = r2'.Summary :=
  ⟨(List.reverse_perm unnamedKindsResult.Findings).symm,
    ComputeSummary_perm unnamedKindsResult reversedKindsResult
      (List.reverse_perm unnamedKindsResult.Findings).symm⟩

/-- C14. The summary is additive over concatenation: for all finding lists
`F1` and `F2`, the summary computed for `F1 ++ F2` has as `Total` the sum of
the totals computed for `F1` and for `F2`, and at every severity and every
type (read as 0 when absent) the sum of the two corresponding counts. -/
theorem ComputeSummary_append (r r1 r2 : ScanResult) (F1 F2 : List Finding) :
    ∃ r' r1' r2',
      ({ r with Findings := F1 ++ F2 } : ScanResult).ComputeSummary = .ok r' ∧
      ({ r1 with Findings := F1 } : ScanResult).ComputeSummary = .ok r1' ∧
      ({ r2 with Findings := F2 } : ScanResult).ComputeSummary = .ok r2' ∧
      r'.Summary.Total = r1'.Summary.Total + r2'.Summary.Total ∧
      (∀ s : Severity, r'.Summary.BySeverity.index s
        = r1'.Summary.BySeverity.index s + r2'.Summary.BySeverity.index s) ∧
      (∀ t : FindingType, r'.Summary.ByType.index t
        = r1'.Summary.ByType.index t + r2'.Summary.ByType.index t) := by
  refine ⟨_, _, _, ComputeSummary_eq _, ComputeSummary_eq _, ComputeSummary_eq _, ?_, ?_, ?_⟩
  · simp only [List.length_append]
    push_cast
    rfl
  · intro s
    simp only
    rw [index_tally, index_tally, index_tally, count_map_severity, count_map_severity,
      count_map_severity, countSeverity_append]
    push_cast
    rfl
  · intro t
    simp only
    rw [index_tally, index_tally, index_tally, count_map_type, count_map_type,
      count_map_type, countType_append]
    push_cast
    rfl

end Models
